import Mathlib

/-!
# Verification of the availability-detection and match-gated purchase logic

Shallow embedding of the core logic of the blinkitHW shopping-automation
scripts: the availability classification, the fuzzy name-match gate, the
status-file hand-off between the monitor and purchase processes, and the
purchase step sequence.  Strings are modelled as Lean `String` / `List Char`,
Python floats as `ℚ`, and each embedded function mirrors the corresponding
Python source (file and line references are given in the doc comments).
-/

/- ------------------------------------------------------------------ -/
/- difflib.SequenceMatcher (Python standard library), as used at
   product_watcher.py:651 and :719 via
   `difflib.SequenceMatcher(None, a.lower(), b.lower()).ratio()`.
   `isjunk` is `None`, so the junk set is empty and the junk-extension
   loops of `find_longest_match` never fire; the autojunk popularity
   filter on `b2j` is modelled faithfully (it is inert for `len(b) < 200`). -/
/- ------------------------------------------------------------------ -/

/-- Python `str.lower()` restricted to the ASCII names this code handles. -/
def pyLower (s : List Char) : List Char := s.map Char.toLower

/-- `b2j`: for each element of `b`, the ascending list of indices where it
occurs (`SequenceMatcher.__chain_b`, before the autojunk filter). -/
def b2jAll (b : List Char) (c : Char) : List Nat :=
  (List.range b.length).filter (fun j => b.get? j = some c)

/-- `b2j` after the autojunk step: when `len(b) >= 200`, elements occurring
more than `len(b) // 100 + 1` times are deleted from the dict, so lookups
for them return `[]` (`b2j.get(elt, [])`). -/
def b2j (b : List Char) (c : Char) : List Nat :=
  let js := b2jAll b c
  if 200 ≤ b.length ∧ b.length / 100 + 1 < js.length then [] else js

/-- Lookup in the `j2len` dict (association list), defaulting to 0. -/
def j2get (m : List (Nat × Nat)) (j : Nat) : Nat :=
  match m.find? (fun p => p.1 = j) with
  | some p => p.2
  | none => 0

/-- Python `j2len.get(j-1, 0)`: when `j = 0` the key `-1` is absent. -/
def j2getPred (m : List (Nat × Nat)) (j : Nat) : Nat :=
  if j = 0 then 0 else j2get m (j - 1)

/-- Inner loop of `find_longest_match` over the occurrence list of `a[i]`
(`for j in b2j.get(a[i], [])`), threading `(newj2len, besti, bestj, bestsize)`.
The list is ascending, so Python's `break` at `j >= bhi` is a stop. -/
def flmInner (blo bhi i : Nat) (j2len : List (Nat × Nat)) :
    List Nat → List (Nat × Nat) × Nat × Nat × Nat → List (Nat × Nat) × Nat × Nat × Nat
  | [], st => st
  | j :: js, (newm, bi, bj, bs) =>
    if j < blo then flmInner blo bhi i j2len js (newm, bi, bj, bs)
    else if bhi ≤ j then (newm, bi, bj, bs)
    else
      let k := j2getPred j2len j + 1
      let newm2 := (j, k) :: newm
      if bs < k then flmInner blo bhi i j2len js (newm2, i + 1 - k, j + 1 - k, k)
      else flmInner blo bhi i j2len js (newm2, bi, bj, bs)

/-- Outer loop of `find_longest_match` (`for i in range(alo, ahi)`). -/
def flmRows (a b : List Char) (blo bhi : Nat) :
    List Nat → List (Nat × Nat) × Nat × Nat × Nat → List (Nat × Nat) × Nat × Nat × Nat
  | [], st => st
  | i :: is_, (j2len, bi, bj, bs) =>
    let st2 := flmInner blo bhi i j2len (b2j b (a.getD i ' ')) ([], bi, bj, bs)
    flmRows a b blo bhi is_ st2

/-- Backward extension: `while besti > alo and bestj > blo and
a[besti-1] == b[bestj-1]` (the `not isbjunk` conjunct is vacuous, the junk
set being empty).  Fuelled by `besti`, which strictly decreases. -/
def flmExtPrev (a b : List Char) (alo blo : Nat) :
    Nat → Nat → Nat → Nat → Nat × Nat × Nat
  | 0, bi, bj, bs => (bi, bj, bs)
  | fuel + 1, bi, bj, bs =>
    if alo < bi ∧ blo < bj ∧ a.getD (bi - 1) ' ' = b.getD (bj - 1) ' ' then
      flmExtPrev a b alo blo fuel (bi - 1) (bj - 1) (bs + 1)
    else (bi, bj, bs)

/-- Forward extension: `while besti+bestsize < ahi and bestj+bestsize < bhi
and a[besti+bestsize] == b[bestj+bestsize]`.  Fuelled by `ahi`. -/
def flmExtNext (a b : List Char) (ahi bhi : Nat) :
    Nat → Nat → Nat → Nat → Nat × Nat × Nat
  | 0, bi, bj, bs => (bi, bj, bs)
  | fuel + 1, bi, bj, bs =>
    if bi + bs < ahi ∧ bj + bs < bhi ∧ a.getD (bi + bs) ' ' = b.getD (bj + bs) ' ' then
      flmExtNext a b ahi bhi fuel bi bj (bs + 1)
    else (bi, bj, bs)

/-- `SequenceMatcher.find_longest_match(alo, ahi, blo, bhi)` with no junk.
The final pair of junk-only extension loops require `isbjunk` to hold and
are therefore dropped (the junk set is empty). -/
def findLongestMatch (a b : List Char) (alo ahi blo bhi : Nat) : Nat × Nat × Nat :=
  let st := flmRows a b blo bhi ((List.range (ahi - alo)).map (· + alo)) ([], alo, blo, 0)
  let r1 := flmExtPrev a b alo blo st.2.1 st.2.1 st.2.2.1 st.2.2.2
  flmExtNext a b ahi bhi ahi r1.1 r1.2.1 r1.2.2

/-- Recursive traversal of `get_matching_blocks`: find the longest match in
the window, then recurse on the regions to its left and right (the Python
queue-based loop visits exactly these windows; sorting the collected blocks
yields this in-order list).  Fuelled; the top-level call supplies ample fuel. -/
def matchingBlocksRec (a b : List Char) : Nat → Nat → Nat → Nat → Nat → List (Nat × Nat × Nat)
  | 0, _, _, _, _ => []
  | fuel + 1, alo, ahi, blo, bhi =>
    let x := findLongestMatch a b alo ahi blo bhi
    if x.2.2 = 0 then []
    else
      matchingBlocksRec a b fuel alo x.1 blo x.2.1 ++
        x :: matchingBlocksRec a b fuel (x.1 + x.2.2) ahi (x.2.1 + x.2.2) bhi

/-- The adjacency merge of `get_matching_blocks` (`i1, j1, k1 = 0, 0, 0`
accumulator folding adjacent blocks together). -/
def mergeAdjacent : Nat × Nat × Nat → List (Nat × Nat × Nat) → List (Nat × Nat × Nat)
  | (i1, j1, k1), [] => if k1 ≠ 0 then [(i1, j1, k1)] else []
  | (i1, j1, k1), (i2, j2, k2) :: rest =>
    if i1 + k1 = i2 ∧ j1 + k1 = j2 then mergeAdjacent (i1, j1, k1 + k2) rest
    else if k1 ≠ 0 then (i1, j1, k1) :: mergeAdjacent (i2, j2, k2) rest
    else mergeAdjacent (i2, j2, k2) rest

/-- `SequenceMatcher.get_matching_blocks()`, ending with the sentinel
`(len(a), len(b), 0)`. -/
def getMatchingBlocks (a b : List Char) : List (Nat × Nat × Nat) :=
  mergeAdjacent (0, 0, 0)
      (matchingBlocksRec a b (a.length + b.length + 1) 0 a.length 0 b.length) ++
    [(a.length, b.length, 0)]

/-- `difflib._calculate_ratio(matches, length)`: `2.0*matches/length` when
`length` is nonzero, else `1.0`. -/
def calculateRatio (numMatches length : Nat) : ℚ :=
  if length ≠ 0 then 2 * (numMatches : ℚ) / (length : ℚ) else 1

/-- `sum(triple[-1] for triple in self.get_matching_blocks())`. -/
def smMatches (a b : List Char) : Nat :=
  (getMatchingBlocks a b).foldl (fun acc t => acc + t.2.2) 0

/-- `SequenceMatcher.ratio()`: twice the total size of the matching blocks
over the total length. -/
def smRatio (a b : List Char) : ℚ :=
  calculateRatio (smMatches a b) (a.length + b.length)

/-- The similarity computed at product_watcher.py:651/:719:
`difflib.SequenceMatcher(None, expected.lower(), observed.lower()).ratio()`. -/
def name_similarity (expected observed : String) : ℚ :=
  smRatio (pyLower expected.toList) (pyLower observed.toList)

/-- Evaluation helper: reduce a concrete similarity to `calculateRatio` of
concrete naturals (the `ℚ` arithmetic itself is not kernel-reducible). -/
theorem name_similarity_eval (e o : String) (m l : Nat)
    (hm : smMatches (pyLower e.toList) (pyLower o.toList) = m)
    (hl : (pyLower e.toList).length + (pyLower o.toList).length = l) :
    name_similarity e o = calculateRatio m l := by
  unfold name_similarity smRatio
  rw [hm, hl]

/- ------------------------------------------------------------------ -/
/- Availability classification                                         -/
/- ------------------------------------------------------------------ -/

/-- product_watcher.py:408-444 (`ProductWatcher.check_product_status`,
after the page signals are read): the status string written this check and
the returned `is_available` flag.  `is_coming_soon` is visibility of
`text=Coming Soon`, `is_add_to_cart` of `text=ADD`; no out-of-stock signal
is consulted here. -/
def check_product_status_core (is_coming_soon is_add_to_cart : Bool) : String × Bool :=
  if is_add_to_cart && !is_coming_soon then ("available", true)
  else if is_coming_soon then ("coming_soon", false)
  else ("unknown", false)

/-- product_watcher.py:559-589 (`ProductWatcher.watch`, one poll cycle):
`check_product_status` runs first; only when it reports available does
`check_stock_status` run, downgrading the cycle to the out-of-stock states
(`out_of_stock_monitoring` under `continue_on_out_of_stock`).  The value is
the cycle's final availability classification. -/
def watch_cycle_status (is_coming_soon is_add_to_cart is_out_of_stock
    continue_on_out_of_stock : Bool) : String :=
  let r := check_product_status_core is_coming_soon is_add_to_cart
  if r.2 then
    if is_out_of_stock then
      if continue_on_out_of_stock then "out_of_stock_monitoring" else "out_of_stock"
    else "available"
  else r.1

/-- zepto_checker.py:608-630 (`ZeptoChecker.check_product_availability`,
after the page signals are read): status string written for the check. -/
def zepto_availability_status (add_to_cart_visible is_out_of_stock : Bool) : String :=
  if add_to_cart_visible && !is_out_of_stock then "available"
  else if is_out_of_stock then "out_of_stock" else "not_available"

/-- The spec's §4.1 `AvailabilityClassifier.classify` contract, stated in
the claim: out-of-stock first, then available, then coming-soon, else
unknown.  This follows the spec's words, for comparison with the code. -/
def spec_classify (comingSoonVisible addToCartVisible outOfStockVisible : Bool) : String :=
  if outOfStockVisible then "out_of_stock"
  else if addToCartVisible && !comingSoonVisible then "available"
  else if comingSoonVisible then "coming_soon"
  else "unknown"

/-- The amended priority rules, following the amended claim's words: the
out-of-stock signal is consulted only inside the available branch. -/
def spec_classify_amended (comingSoonVisible addToCartVisible outOfStockVisible
    continueOnOutOfStock : Bool) : String :=
  if addToCartVisible && !comingSoonVisible then
    if outOfStockVisible then
      if continueOnOutOfStock then "out_of_stock_monitoring" else "out_of_stock"
    else "available"
  else if comingSoonVisible then "coming_soon"
  else "unknown"

/- ------------------------------------------------------------------ -/
/- Status records and the status-file hand-off                         -/
/- ------------------------------------------------------------------ -/

/-- The JSON object built by `ProductWatcher.write_status`
(product_watcher.py:341-355), field for field.  `details` values are
modelled as strings. -/
structure PWStatusData where
  product_url : String
  product_id : Option String
  latitude : Option ℚ
  longitude : Option ℚ
  status : String
  timestamp : String
  query_count : Nat
  details : List (String × String)
  action_needed : Bool
deriving DecidableEq

/-- product_watcher.py:341-355: the record `write_status` serializes; in
particular `"action_needed": status == "available"`. -/
def pw_write_status_data (product_url : String) (product_id : Option String)
    (latitude longitude : Option ℚ) (query_count : Nat) (timestamp : String)
    (status : String) (details : List (String × String)) : PWStatusData :=
  ⟨product_url, product_id, latitude, longitude, status, timestamp, query_count,
    details, status == "available"⟩

/-- The JSON object built by `ZeptoChecker.write_status`
(zepto_checker.py:348-359), field for field. -/
structure ZeptoStatusData where
  product_url : String
  product_name : String
  location : String
  status : String
  timestamp : String
  query_count : Nat
  details : List (String × String)
  action_needed : Bool
deriving DecidableEq

/-- zepto_checker.py:348-359: the record `write_status` serializes; again
`"action_needed": status == "available"`. -/
def zepto_write_status_data (product_url product_name location : String)
    (query_count : Nat) (timestamp : String) (status : String)
    (details : List (String × String)) : ZeptoStatusData :=
  ⟨product_url, product_name, location, status, timestamp, query_count,
    details, status == "available"⟩

/-- The durable store: a map from file name to the record the file holds
(one record per file, written in full). -/
def FileStore : Type := String → Option PWStatusData

/-- product_watcher.py:34: `STATUS_FILE = Path("product_status.json")`. -/
def pw_status_file : String := "product_status.json"

/-- src/order/services/auto_purchase.py:20:
`STATUS_FILE = Path("product_monitor_status.json")`. -/
def aps_status_file : String := "product_monitor_status.json"

/-- Writing a file replaces its whole content. -/
def store_write (fs : FileStore) (name : String) (r : PWStatusData) : FileStore :=
  fun n => if n = name then some r else fs n

/-- `ProductWatcher.write_status` persists to `STATUS_FILE`
(product_watcher.py:358). -/
def pw_write_to_store (fs : FileStore) (r : PWStatusData) : FileStore :=
  store_write fs pw_status_file r

/-- `AutoPurchaseService.read_status` (auto_purchase.py:33-44): returns the
content of its `STATUS_FILE`, or `None` when the file is absent. -/
def aps_read_status (fs : FileStore) : Option PWStatusData :=
  fs aps_status_file

/-- A store in which no status file has been written yet. -/
def empty_store : FileStore := fun _ => none

/-- A concrete valid StatusRecord (the initial monitoring record of a
watcher for the sample URL of product_watcher.py:882). -/
def sample_record : PWStatusData :=
  pw_write_status_data "https://blinkit.com/prn/x/prid/746548" (some "746548")
    none none 0 "2026-01-01T00:00:00" "monitoring" []

/- ------------------------------------------------------------------ -/
/- The purchase-side watch loop (AutoPurchaseService.watch)            -/
/- ------------------------------------------------------------------ -/

/-- The fields of the monitor status dict that
`AutoPurchaseService.watch` consults. -/
structure MonitorStatus where
  status : String
  timestamp : String
  action_needed : Bool
  product_id : Option String
deriving DecidableEq

/-- auto_purchase.py:46-52 (`AutoPurchaseService.status_changed`). -/
def status_changed (last : Option MonitorStatus) (cur : MonitorStatus) : Bool :=
  match last with
  | none => true
  | some l => cur.status != l.status || cur.timestamp != l.timestamp

/-- What one iteration of the watch loop body does with the record it
read: trigger a purchase, log, or just continue polling. -/
inductive WatchAction where
  | trigger_purchase
  | log_monitor_error
  | log_coming_soon
  | no_action
deriving DecidableEq

/-- auto_purchase.py:165-196: one iteration of `AutoPurchaseService.watch`
over the record read this cycle (`none` when the file is missing or
unreadable), returning the action taken and the updated `last_status`.
Every branch returns normally: no status value raises. -/
def aps_watch_step (last : Option MonitorStatus) (cur : Option MonitorStatus) :
    WatchAction × Option MonitorStatus :=
  match cur with
  | none => (.no_action, last)
  | some c =>
    if status_changed last c then
      if c.status == "available" && c.action_needed then (.trigger_purchase, some c)
      else if c.status == "error" then (.log_monitor_error, some c)
      else if c.status == "coming_soon" then (.log_coming_soon, some c)
      else (.no_action, some c)
    else (.no_action, last)

/-- The watch loop keeps polling after an iteration unless that iteration
triggered a purchase (auto_purchase.py:178-185: only the trigger branch
returns or breaks out of the loop). -/
def aps_loop_continues (a : WatchAction) : Bool :=
  match a with
  | .trigger_purchase => false
  | _ => true

/-- Modelled from the spec: §3 lists the defined status values
`{Monitoring, ComingSoon, Available, OutOfStock, Unknown, Error, Stopped,
Purchased}`, in the lowercase spelling the status file uses. -/
def spec_defined_statuses : List String :=
  ["monitoring", "coming_soon", "available", "out_of_stock", "unknown",
   "error", "stopped", "purchased"]

/- ------------------------------------------------------------------ -/
/- query_count discipline of the watcher                               -/
/- ------------------------------------------------------------------ -/

/-- The two kinds of status writes a `ProductWatcher` instance performs:
`poll_check` models `check_product_status` (product_watcher.py:369:
`self.query_count += 1` before its `write_status` call snapshots the
field), `plain_write` the direct `write_status` calls in `watch`
(monitoring / stopped / out_of_stock / purchased, and the abort write in
`auto_purchase`), which leave `query_count` untouched. -/
inductive PWWriteOp where
  | poll_check
  | plain_write
deriving DecidableEq

/-- The `query_count` values carried by the successive status records a
watcher instance writes, starting from counter value `q`
(`self.query_count = 0` at product_watcher.py:160). -/
def written_query_counts (q : Nat) : List PWWriteOp → List Nat
  | [] => []
  | .poll_check :: ops => (q + 1) :: written_query_counts (q + 1) ops
  | .plain_write :: ops => q :: written_query_counts q ops

/- ------------------------------------------------------------------ -/
/- The purchase sequence (ProductWatcher.auto_purchase)                -/
/- ------------------------------------------------------------------ -/

/-- Python truthiness of `self.expected_product_name` (`None` at init,
product_watcher.py:164; both `None` and `""` are falsy). -/
def opt_str_truthy : Option String → Bool
  | none => false
  | some s => !(s == "")

/-- The observable actions of one `auto_purchase` run, in order. -/
inductive AEvent where
  /-- a `write_status(status, {"message": message, ...})` call -/
  | write_status_rec (status : String) (message : String)
  /-- an ADD selector was visible and clicked (product_watcher.py:670-677) -/
  | click_add
  /-- `text=My Cart` clicked (product_watcher.py:687-690) -/
  | open_cart
  /-- Telegram notification attempt (product_watcher.py:693-709) -/
  | send_telegram
  /-- checkpoint (b) computed a ratio `< 0.70` and only warned (py:722-725) -/
  | cart_verify_warn
  /-- checkpoint (b) computed a ratio `>= 0.70` (product_watcher.py:727) -/
  | cart_verify_ok
  /-- cart drawer button clicked (product_watcher.py:738-748) -/
  | click_cart_button
  /-- Step 5 reached: the proceed-to-checkout attempt (py:753 onwards) -/
  | checkout_step
  /-- `Proceed to Pay` was visible and clicked (product_watcher.py:770-783) -/
  | click_proceed
  /-- a Cash selector was visible and clicked (product_watcher.py:816-826) -/
  | select_cash
  /-- a Pay button was visible and clicked (product_watcher.py:843-852) -/
  | click_pay
deriving DecidableEq

/-- The page/session environment one `auto_purchase` run observes: the
remembered expected name, what the probes report, and whether the optional
Telegram bot is configured. -/
structure PurchaseEnv where
  expected_product_name : Option String
  page_title : String
  add_visible : Bool
  my_cart_visible : Bool
  telegram_configured : Bool
  cart_name : String
  cart_button_visible : Bool
  proceed_visible : Bool
  cash_visible : Bool
  pay_visible : Bool

/-- Checkpoint (b), product_watcher.py:711-727: runs only when the
expected name is set and the cart extraction succeeded; a low ratio yields
a warning, a good one an OK log — in both cases only a log. -/
def cart_verify_events (env : PurchaseEnv) : List AEvent :=
  if opt_str_truthy env.expected_product_name && !(env.cart_name == "Unknown") then
    if name_similarity (env.expected_product_name.getD "") env.cart_name < 7/10 then
      [AEvent.cart_verify_warn]
    else [AEvent.cart_verify_ok]
  else []

/-- product_watcher.py:665-864, the steps after the checkpoint (a) gate:
Step 2 clicks an ADD selector (return False when none is visible),
Steps 3-7 are best effort — each proceeds whether or not its control was
found — and the function then returns True. -/
def auto_purchase_steps (env : PurchaseEnv) : List AEvent × Bool :=
  if env.add_visible then
    (AEvent.click_add ::
      ((if env.my_cart_visible then [AEvent.open_cart] else []) ++
        (if env.telegram_configured then [AEvent.send_telegram] else []) ++
        cart_verify_events env ++
        (if env.cart_button_visible then [AEvent.click_cart_button] else []) ++
        (AEvent.checkout_step ::
          (if env.proceed_visible then [AEvent.click_proceed] else [])) ++
        (if env.cash_visible then [AEvent.select_cash] else []) ++
        (if env.pay_visible then [AEvent.click_pay] else [])),
      true)
  else ([], false)

/-- product_watcher.py:633-868 (`ProductWatcher.auto_purchase`): checkpoint
(a) at lines 648-663 — when the expected name is set, a similarity below
0.70 writes the `available` status back with the mismatch detail and
returns failure before any further step; otherwise the step sequence runs. -/
def auto_purchase (env : PurchaseEnv) : List AEvent × Bool :=
  if opt_str_truthy env.expected_product_name then
    if 7/10 ≤ name_similarity (env.expected_product_name.getD "") env.page_title then
      auto_purchase_steps env
    else
      ([AEvent.write_status_rec "available" "Aborted due to product name mismatch"], false)
  else auto_purchase_steps env

/-- zepto_checker.py:644-650 (`ZeptoChecker.add_to_cart` Step 1): the
verification outcome of the pre-cart name check — `fuzz.ratio` yields an
integer percentage, and `similarity < 70` logs a mismatch warning,
otherwise a verified log.  (In the Zepto flow this check never aborts.) -/
def zepto_name_verified (similarity : Nat) : Bool :=
  if similarity < 70 then false else true

/- ------------------------------------------------------------------ -/
/- Product-id extraction (ProductWatcher.extract_product_id)           -/
/- ------------------------------------------------------------------ -/

/-- Whether `s` starts with the separator `sep`. -/
def startsWithSeq (sep s : List Char) : Bool :=
  decide (sep = s.take sep.length)

/-- Leftmost occurrence of `sep` in `s`: the part before it and the part
after it, or `none` when `sep` does not occur. -/
def split_first (sep : List Char) : List Char → Option (List Char × List Char)
  | [] => if startsWithSeq sep [] then some ([], []) else none
  | c :: t =>
    if startsWithSeq sep (c :: t) then some ([], (c :: t).drop sep.length)
    else (split_first sep t).map (fun pr => (c :: pr.1, pr.2))

/-- Whether `sep` occurs as a contiguous run inside `s`. -/
def occursB (sep : List Char) : List Char → Bool
  | [] => startsWithSeq sep []
  | c :: t => startsWithSeq sep (c :: t) || occursB sep t

/-- Python `s.split(sep)` for a nonempty separator: cut at each leftmost
occurrence in turn.  Fuelled; `length s + 1` cuts always suffice. -/
def py_split_fuel (sep : List Char) : Nat → List Char → List (List Char)
  | 0, s => [s]
  | fuel + 1, s =>
    match split_first sep s with
    | none => [s]
    | some pr => pr.1 :: py_split_fuel sep fuel pr.2

/-- Python `s.split(sep)`. -/
def py_split (sep s : List Char) : List (List Char) :=
  py_split_fuel sep (s.length + 1) s

/-- Python `lst[-1]` under the enclosing `try`: `none` models the
`IndexError` path (empty list). -/
def py_last_item {α : Type} : List α → Option α
  | [] => none
  | [x] => some x
  | _ :: y :: t => py_last_item (y :: t)

/-- The literal separator of product_watcher.py:178. -/
def prid_sep : List Char := "prid/".toList

/-- product_watcher.py:175-180 (`ProductWatcher.extract_product_id`):
`url.split("prid/")[-1]`, with the `except` fallback returning `None`
modelled by the `IndexError` path of `[-1]`. -/
def extract_product_id (url : List Char) : Option (List Char) :=
  py_last_item (py_split prid_sep url)

theorem startsWithSeq_true {sep s : List Char} (h : startsWithSeq sep s = true) :
    sep = s.take sep.length := by
  simpa [startsWithSeq] using h

theorem split_first_sound (sep : List Char) :
    ∀ s p r, split_first sep s = some (p, r) → s = p ++ sep ++ r := by
  intro s
  induction s with
  | nil =>
    intro p r h
    by_cases hs : startsWithSeq sep [] = true
    · have hsep := startsWithSeq_true hs
      simp only [List.take_nil] at hsep
      simp [split_first, hs] at h
      obtain ⟨hp, hr⟩ := h
      subst hp
      subst hr
      simp [hsep]
    · simp [split_first, hs] at h
  | cons c t ih =>
    intro p r h
    by_cases hs : startsWithSeq sep (c :: t) = true
    · have hsep := startsWithSeq_true hs
      simp [split_first, hs] at h
      obtain ⟨hp, hr⟩ := h
      subst hp
      subst hr
      simp only [List.nil_append]
      conv_lhs => rw [← List.take_append_drop sep.length (c :: t)]
      rw [← hsep]
    · simp only [split_first, hs, if_false, Bool.false_eq_true, Option.map_eq_some'] at h
      obtain ⟨⟨p2, r2⟩, h2, heq⟩ := h
      have ht := ih p2 r2 h2
      injection heq with hp hr
      subst hp
      subst hr
      simp [ht]

theorem split_first_none_iff (sep : List Char) :
    ∀ s, split_first sep s = none ↔ occursB sep s = false := by
  intro s
  induction s with
  | nil =>
    by_cases hs : startsWithSeq sep [] = true <;> simp [split_first, occursB, hs]
  | cons c t ih =>
    by_cases hs : startsWithSeq sep (c :: t) = true <;>
      simp [split_first, occursB, hs, Option.map_eq_none', ih]

theorem split_first_shrinks (sep : List Char) (hsep : sep ≠ []) {s p r : List Char}
    (h : split_first sep s = some (p, r)) : r.length < s.length := by
  have hd := split_first_sound sep s p r h
  have hlen : s.length = p.length + (sep.length + r.length) := by
    rw [hd]; simp [List.length_append]
  have hpos : 0 < sep.length := List.length_pos.mpr hsep
  omega

theorem py_split_fuel_ne_nil (sep : List Char) (fuel : Nat) (s : List Char) :
    py_split_fuel sep fuel s ≠ [] := by
  cases fuel with
  | zero => simp [py_split_fuel]
  | succ n => cases h : split_first sep s <;> simp [py_split_fuel, h]

theorem py_last_item_cons {α : Type} (a : α) (l : List α) (h : l ≠ []) :
    py_last_item (a :: l) = py_last_item l := by
  cases l with
  | nil => exact absurd rfl h
  | cons b t => rfl

theorem py_last_item_isSome {α : Type} :
    ∀ l : List α, l ≠ [] → (py_last_item l).isSome = true := by
  intro l
  induction l with
  | nil => intro h; exact absurd rfl h
  | cons a t ih =>
    intro _
    cases t with
    | nil => rfl
    | cons b t2 =>
      rw [py_last_item_cons a _ (by simp)]
      exact ih (by simp)

theorem py_split_fuel_last_spec (sep : List Char) (hsep : sep ≠ []) :
    ∀ (fuel : Nat), ∀ s : List Char, s.length < fuel →
      ∀ r, py_last_item (py_split_fuel sep fuel s) = some r →
        occursB sep r = false ∧
        (occursB sep s = false → r = s) ∧
        (occursB sep s = true → ∃ p, s = p ++ sep ++ r) := by
  intro fuel
  induction fuel with
  | zero => intro s hs; exact absurd hs (Nat.not_lt_zero _)
  | succ n ih =>
    intro s hs r hr
    cases h : split_first sep s with
    | none =>
      simp only [py_split_fuel, h] at hr
      have hrs : r = s := by
        simpa [py_last_item] using hr.symm
      have hocc : occursB sep s = false := (split_first_none_iff sep s).mp h
      subst hrs
      exact ⟨hocc, fun _ => rfl, fun htrue => absurd hocc (by simp [htrue])⟩
    | some pr =>
      obtain ⟨p1, r1⟩ := pr
      simp only [py_split_fuel, h] at hr
      rw [py_last_item_cons _ _ (py_split_fuel_ne_nil sep n r1)] at hr
      have hlt : r1.length < n := by
        have := split_first_shrinks sep hsep h
        omega
      obtain ⟨h1, h2, h3⟩ := ih r1 hlt r hr
      have hdecomp := split_first_sound sep s p1 r1 h
      have hocc : occursB sep s = true := by
        cases hc : occursB sep s with
        | false =>
          rw [(split_first_none_iff sep s).mpr hc] at h
          exact absurd h (by simp)
        | true => rfl
      refine ⟨h1, fun hfalse => absurd hocc (by simp [hfalse]), fun _ => ?_⟩
      cases hc : occursB sep r1 with
      | false =>
        have hr1 : r = r1 := h2 hc
        exact ⟨p1, by rw [hdecomp, hr1]⟩
      | true =>
        obtain ⟨p2, hp2⟩ := h3 hc
        exact ⟨p1 ++ sep ++ p2, by rw [hdecomp, hp2]; simp [List.append_assoc]⟩

/- ------------------------------------------------------------------ -/
/- Concrete inputs used to instantiate the theorems                    -/
/- ------------------------------------------------------------------ -/

/-- A run whose on-screen title ("") has similarity 0 with the remembered
expected name ("X"): checkpoint (a) fails.  All controls are visible. -/
def env_abort : PurchaseEnv :=
  ⟨some "X", "", true, true, false, "Unknown", true, true, true, true⟩

/-- A run where checkpoint (a) passes (identical names) but the product
name later observed in the cart ("xy") has similarity 0 with the expected
name ("ab"): checkpoint (b) fails. -/
def env_cart_mismatch : PurchaseEnv :=
  ⟨some "ab", "ab", true, true, true, "xy", true, true, true, true⟩

/-- A run whose on-screen title has similarity exactly 7/10 with the
expected name (7 of 10 characters match on each side). -/
def env_exact_threshold : PurchaseEnv :=
  ⟨some "aaaaaaabbb", "aaaaaaaccc", true, false, false, "Unknown", false,
    false, false, false⟩

/-- A monitor record carrying a status value outside the defined set. -/
def weird_monitor_status : MonitorStatus :=
  ⟨"weird", "2026-01-01T00:00:01", true, some "746548"⟩

/- ------------------------------------------------------------------ -/
/- Claim theorems                                                      -/
/- ------------------------------------------------------------------ -/

/-- C1 (counterexample): the claimed priority order — out-of-stock first —
does not hold of the watcher.  With the coming-soon and out-of-stock
signals both visible and no ADD button, the claim requires OutOfStock, but
the poll cycle classifies ComingSoon: `check_product_status` never
consults the out-of-stock signal, and `watch` checks stock only after the
available branch fires. -/
theorem c1_classify_priority_counterexample :
    watch_cycle_status true false true false = "coming_soon" ∧
    spec_classify true false true = "out_of_stock" ∧
    watch_cycle_status true false true false ≠ spec_classify true false true := by
  refine ⟨by decide, by decide, by decide⟩

/-- C1 (amended): the classification always yields exactly one of the four
state families, but out-of-stock takes priority only inside the available
branch: Available iff add ∧ ¬coming ∧ ¬oos; OutOfStock (or its
continue-mode variant) iff add ∧ ¬coming ∧ oos; else ComingSoon if coming;
else Unknown.  The Zepto checker, which has no coming-soon signal, does
apply out-of-stock-first priority over its two signals. -/
theorem c1_classify_amended :
    (∀ c a o k : Bool,
      watch_cycle_status c a o k = spec_classify_amended c a o k ∧
      watch_cycle_status c a o k ∈
        ["available", "coming_soon", "unknown", "out_of_stock",
          "out_of_stock_monitoring"]) ∧
    (∀ a o : Bool, zepto_availability_status a o =
      (if o then "out_of_stock" else if a then "available" else "not_available")) := by
  refine ⟨by decide, by decide⟩

/-- C5: every status record either watcher writes satisfies
`action_needed = (status == "available")` — the flag is true exactly when
the written status is the available status, whatever the other fields. -/
theorem c5_action_needed_invariant :
    (∀ (url : String) (pid : Option String) (lat lng : Option ℚ) (qc : Nat)
        (ts status : String) (details : List (String × String)),
      ((pw_write_status_data url pid lat lng qc ts status details).action_needed = true ↔
        status = "available")) ∧
    (∀ (url pname loc : String) (qc : Nat) (ts status : String)
        (details : List (String × String)),
      ((zepto_write_status_data url pname loc qc ts status details).action_needed = true ↔
        status = "available")) := by
  constructor <;> intros <;>
    simp [pw_write_status_data, zepto_write_status_data]

/-- C6: the hand-off is broken at the file name.  `ProductWatcher`
persists to `product_status.json` while `AutoPurchaseService` reads
`product_monitor_status.json`, so after the monitor writes a valid record
into a fresh store, the purchase-side read returns `none`, not the record
— the record is only retrievable from the file the monitor actually
wrote. -/
theorem c6_status_store_handoff_mismatch :
    aps_read_status (pw_write_to_store empty_store sample_record) = none ∧
    (pw_write_to_store empty_store sample_record) pw_status_file = some sample_record ∧
    pw_status_file ≠ aps_status_file := by
  refine ⟨?_, ?_, by decide⟩
  · show (if aps_status_file = pw_status_file then some sample_record
      else empty_store aps_status_file) = none
    rw [if_neg (by decide)]
    rfl
  · show (if pw_status_file = pw_status_file then some sample_record
      else empty_store pw_status_file) = some sample_record
    rw [if_pos rfl]

/-- C8: the degenerate similarity cases — two empty names give ratio 1,
an empty observed name against a nonempty expected one gives ratio 0;
hence the first passes and the second fails the fixed 0.70 threshold. -/
theorem c8_empty_name_similarity :
    name_similarity "" "" = 1 ∧ name_similarity "X" "" = 0 ∧
    7/10 ≤ name_similarity "" "" ∧ ¬(7/10 ≤ name_similarity "X" "") := by
  have h1 : name_similarity "" "" = 1 := by
    rw [name_similarity_eval "" "" 0 0 (by decide) (by decide)]
    norm_num [calculateRatio]
  have h2 : name_similarity "X" "" = 0 := by
    rw [name_similarity_eval "X" "" 0 1 (by decide) (by decide)]
    norm_num [calculateRatio]
  exact ⟨h1, h2, by rw [h1]; norm_num, by rw [h2]; norm_num⟩

theorem written_query_counts_ge :
    ∀ (ops : List PWWriteOp) (q x : Nat),
      x ∈ written_query_counts q ops → q ≤ x := by
  intro ops
  induction ops with
  | nil => intro q x h; simp [written_query_counts] at h
  | cons op rest ih =>
    intro q x h
    cases op with
    | poll_check =>
      simp only [written_query_counts, List.mem_cons] at h
      rcases h with h | h
      · omega
      · have := ih (q + 1) x h
        omega
    | plain_write =>
      simp only [written_query_counts, List.mem_cons] at h
      rcases h with h | h
      · omega
      · exact ih q x h

/-- C9: across any sequence of writes by one watcher instance the written
`query_count` values are monotone (every later write carries a count `≥`
every earlier one), and a poll cycle (`check_product_status`) writes
exactly the incremented counter. -/
theorem c9_query_count_monotone :
    (∀ (q : Nat) (ops : List PWWriteOp),
      List.Pairwise (· ≤ ·) (written_query_counts q ops)) ∧
    (∀ (q : Nat) (ops : List PWWriteOp),
      written_query_counts q (PWWriteOp.poll_check :: ops) =
        (q + 1) :: written_query_counts (q + 1) ops) := by
  constructor
  · intro q ops
    induction ops generalizing q with
    | nil => simp [written_query_counts]
    | cons op rest ih =>
      cases op with
      | poll_check =>
        exact List.Pairwise.cons
          (fun x hx => written_query_counts_ge rest (q + 1) x hx) (ih (q + 1))
      | plain_write =>
        exact List.Pairwise.cons
          (fun x hx => written_query_counts_ge rest q x hx) (ih q)
  · intro q ops
    rfl

/-- C2: when checkpoint (a) fails — the expected name is set and the
similarity with the on-screen title is below 0.70 — `auto_purchase`
produces exactly the `available`-with-mismatch status rewrite, returns
failure, and in particular never clicks an ADD control. -/
theorem c2_checkpoint_a_aborts (env : PurchaseEnv) (e : String)
    (h1 : env.expected_product_name = some e) (h2 : e ≠ "")
    (h3 : name_similarity e env.page_title < 7/10) :
    auto_purchase env =
      ([AEvent.write_status_rec "available" "Aborted due to product name mismatch"],
        false) ∧
    AEvent.click_add ∉ (auto_purchase env).1 := by
  have ht : opt_str_truthy env.expected_product_name = true := by
    rw [h1]; simp [opt_str_truthy, h2]
  have hgd : env.expected_product_name.getD "" = e := by rw [h1]; rfl
  have hne : ¬(7/10 ≤ name_similarity (env.expected_product_name.getD "") env.page_title) := by
    rw [hgd]; exact not_le.mpr h3
  have hmain : auto_purchase env =
      ([AEvent.write_status_rec "available" "Aborted due to product name mismatch"],
        false) := by
    simp [auto_purchase, ht, hne]
  refine ⟨hmain, ?_⟩
  rw [hmain]
  simp

/-- C2 witness: with expected name "X" and observed title "", the
similarity is 0 < 0.70 and the run aborts with the mismatch write. -/
theorem c2_checkpoint_a_aborts_witness :
    name_similarity "X" "" < 7/10 ∧
    auto_purchase env_abort =
      ([AEvent.write_status_rec "available" "Aborted due to product name mismatch"],
        false) := by
  have hsim : name_similarity "X" "" < 7/10 := by
    rw [name_similarity_eval "X" "" 0 1 (by decide) (by decide)]
    norm_num [calculateRatio]
  exact ⟨hsim, (c2_checkpoint_a_aborts env_abort "X" rfl (by decide) hsim).1⟩

/-- C3: once the add click happened, checkpoint (b) never blocks: whatever
the cart name (hence whatever its similarity outcome), the run reaches the
checkout step and still returns success, and a cart mismatch contributes
only the warning event. -/
theorem c3_checkpoint_b_never_blocks (env : PurchaseEnv)
    (hadd : env.add_visible = true)
    (hgate : opt_str_truthy env.expected_product_name = true →
      7/10 ≤ name_similarity (env.expected_product_name.getD "") env.page_title) :
    (auto_purchase env).2 = true ∧
    AEvent.checkout_step ∈ (auto_purchase env).1 ∧
    (opt_str_truthy env.expected_product_name = true → env.cart_name ≠ "Unknown" →
      name_similarity (env.expected_product_name.getD "") env.cart_name < 7/10 →
      AEvent.cart_verify_warn ∈ (auto_purchase env).1) := by
  have hsteps : auto_purchase env = auto_purchase_steps env := by
    unfold auto_purchase
    cases htr : opt_str_truthy env.expected_product_name with
    | false => simp
    | true => simp [hgate htr]
  rw [hsteps]
  refine ⟨by simp [auto_purchase_steps, hadd], by simp [auto_purchase_steps, hadd], ?_⟩
  intro htr hcart hlow
  have hcv : cart_verify_events env = [AEvent.cart_verify_warn] := by
    simp [cart_verify_events, htr, hcart, hlow]
  simp [auto_purchase_steps, hadd, hcv]

/-- C3 witness: expected "ab", on-screen "ab" (gate passes), cart name
"xy" (similarity 0): the run still returns success and reaches checkout,
with the mismatch producing the warning event. -/
theorem c3_checkpoint_b_never_blocks_witness :
    (auto_purchase env_cart_mismatch).2 = true ∧
    AEvent.checkout_step ∈ (auto_purchase env_cart_mismatch).1 ∧
    AEvent.cart_verify_warn ∈ (auto_purchase env_cart_mismatch).1 := by
  have hgood : (7 : ℚ)/10 ≤ name_similarity "ab" "ab" := by
    rw [name_similarity_eval "ab" "ab" 2 4 (by decide) (by decide)]
    norm_num [calculateRatio]
  have hlow : name_similarity "ab" "xy" < 7/10 := by
    rw [name_similarity_eval "ab" "xy" 0 4 (by decide) (by decide)]
    norm_num [calculateRatio]
  obtain ⟨ha, hb, hc⟩ :=
    c3_checkpoint_b_never_blocks env_cart_mismatch rfl (fun _ => hgood)
  exact ⟨ha, hb, hc (by decide) (by decide) hlow⟩

/-- C4: the pre-cart name-match decision passes — the run goes on to click
ADD — iff the similarity is at least the fixed 0.70 threshold; likewise
the Zepto pre-cart verification passes iff the integer percentage is at
least 70.  Ratios of exactly 0.70 (resp. 70) pass. -/
theorem c4_match_threshold_iff :
    (∀ (env : PurchaseEnv) (e : String),
      env.expected_product_name = some e → e ≠ "" → env.add_visible = true →
      (AEvent.click_add ∈ (auto_purchase env).1 ↔
        7/10 ≤ name_similarity e env.page_title)) ∧
    (∀ similarity : Nat, zepto_name_verified similarity = true ↔ 70 ≤ similarity) := by
  constructor
  · intro env e h1 h2 hadd
    have ht : opt_str_truthy env.expected_product_name = true := by
      rw [h1]; simp [opt_str_truthy, h2]
    have hgd : env.expected_product_name.getD "" = e := by rw [h1]; rfl
    by_cases hr : (7 : ℚ)/10 ≤ name_similarity e env.page_title
    · have hpass : auto_purchase env = auto_purchase_steps env := by
        unfold auto_purchase
        rw [hgd]
        simp [ht, hr]
      rw [hpass]
      simp [auto_purchase_steps, hadd, hr]
    · have hfail : auto_purchase env =
          ([AEvent.write_status_rec "available" "Aborted due to product name mismatch"],
            false) := by
        unfold auto_purchase
        rw [hgd]
        simp [ht, hr]
      rw [hfail]
      simp [hr]
  · intro s
    constructor
    · intro h
      by_contra hx
      simp [zepto_name_verified, Nat.lt_of_not_le hx] at h
    · intro h
      simp [zepto_name_verified, Nat.not_lt.mpr h]

/-- C4 witness: names with similarity exactly 7/10 pass the gate (the ADD
click happens), and the Zepto percentage 70 passes its check. -/
theorem c4_match_threshold_iff_witness :
    (7 : ℚ)/10 ≤ name_similarity "aaaaaaabbb" "aaaaaaaccc" ∧
    AEvent.click_add ∈ (auto_purchase env_exact_threshold).1 ∧
    zepto_name_verified 70 = true := by
  have hsim : name_similarity "aaaaaaabbb" "aaaaaaaccc" = 7/10 := by
    rw [name_similarity_eval "aaaaaaabbb" "aaaaaaaccc" 7 20 (by decide) (by decide)]
    norm_num [calculateRatio]
  have hle : (7 : ℚ)/10 ≤ name_similarity "aaaaaaabbb" "aaaaaaaccc" := le_of_eq hsim.symm
  refine ⟨hle, ?_, (c4_match_threshold_iff.2 70).mpr (by norm_num)⟩
  exact (c4_match_threshold_iff.1 env_exact_threshold "aaaaaaabbb" rfl (by decide) rfl).mpr hle

/-- C7: a record whose status value is outside the defined status set is
simply ignored by the purchase-side watch loop — the step is total (no
branch raises), triggers no purchase, and the loop keeps polling. -/
theorem c7_unknown_status_ignored (last : Option MonitorStatus) (c : MonitorStatus)
    (h : c.status ∉ spec_defined_statuses) :
    (aps_watch_step last (some c)).1 = WatchAction.no_action ∧
    aps_loop_continues (aps_watch_step last (some c)).1 = true := by
  have h1 : c.status ≠ "available" := fun hx => h (by simp [spec_defined_statuses, hx])
  have h2 : c.status ≠ "error" := fun hx => h (by simp [spec_defined_statuses, hx])
  have h3 : c.status ≠ "coming_soon" := fun hx => h (by simp [spec_defined_statuses, hx])
  cases hch : status_changed last c <;>
    simp [aps_watch_step, hch, aps_loop_continues, h1, h2, h3]

/-- C7 witness: the out-of-schema status "weird" neither triggers a
purchase nor stops the loop. -/
theorem c7_unknown_status_ignored_witness :
    "weird" ∉ spec_defined_statuses ∧
    (aps_watch_step none (some weird_monitor_status)).1 = WatchAction.no_action :=
  ⟨by decide, (c7_unknown_status_ignored none weird_monitor_status (by decide)).1⟩

/-- C10: product-id extraction is total — the `except`/`None` fallback is
unreachable for string input: `split` always yields a nonempty list, so
`[-1]` always succeeds.  When `"prid/"` does not occur the whole input is
returned unchanged; when it occurs the result is the suffix after its last
occurrence (it follows an occurrence and contains none itself). -/
theorem c10_extract_product_id_total :
    (∀ url : List Char, (extract_product_id url).isSome = true) ∧
    (∀ url : List Char, occursB prid_sep url = false →
      extract_product_id url = some url) ∧
    (∀ url r : List Char, occursB prid_sep url = true →
      extract_product_id url = some r →
      occursB prid_sep r = false ∧ ∃ p, url = p ++ prid_sep ++ r) := by
  have hsep : prid_sep ≠ [] := by decide
  refine ⟨?_, ?_, ?_⟩
  · intro url
    exact py_last_item_isSome _ (py_split_fuel_ne_nil prid_sep (url.length + 1) url)
  · intro url hocc
    have hnone : split_first prid_sep url = none :=
      (split_first_none_iff prid_sep url).mpr hocc
    show py_last_item (py_split_fuel prid_sep (url.length + 1) url) = some url
    simp [py_split_fuel, hnone, py_last_item]
  · intro url r hocc hex
    have hex2 : py_last_item (py_split_fuel prid_sep (url.length + 1) url) = some r := hex
    have hspec :=
      py_split_fuel_last_spec prid_sep hsep (url.length + 1) url (by omega) r hex2
    exact ⟨hspec.1, hspec.2.2 hocc⟩

/-- C10 witness: a URL without `"prid/"` comes back whole; for
`"x/prid/9"` the extracted id `"9"` follows the last occurrence. -/
theorem c10_extract_product_id_witness :
    (occursB prid_sep "ab".toList = false ∧
      extract_product_id "ab".toList = some "ab".toList) ∧
    (occursB prid_sep "x/prid/9".toList = true ∧
      occursB prid_sep "9".toList = false ∧
      ∃ p, "x/prid/9".toList = p ++ prid_sep ++ "9".toList) := by
  constructor
  · exact ⟨by decide, c10_extract_product_id_total.2.1 _ (by decide)⟩
  · refine ⟨by decide, ?_⟩
    have h :=
      c10_extract_product_id_total.2.2 "x/prid/9".toList "9".toList (by decide) (by decide)
    exact ⟨h.1, h.2⟩
